import Mathlib

/-!
Verification of the workflow `Runner` (Pregel-style superstep engine) from
`agent_framework/_workflows/_runner.py`.

The Python code is shallowly embedded: JSON-like payloads become the inductive
`Value`; Python dicts become association lists with replace-on-insert; Python
exceptions become `Except` with an error type that distinguishes
`ValueError`-class errors from all other exception classes (mirroring the
`except ValueError: raise / except Exception: return False` structure of
`restore_from_checkpoint`); external collaborators that live outside the
runner module (checkpoint decoding, context load/apply, storage) are oracle
parameters supplied to the embedded functions.
-/

/-- JSON-like runtime values: payloads, shared-state entries, metadata. -/
inductive Value where
  | vnone : Value
  | vbool : Bool → Value
  | vnat : Nat → Value
  | vstr : String → Value
  | vlist : List Value → Value
  | vdict : List (String × Value) → Value

/-- `isinstance(v, dict)` for embedded values. -/
def Value.isDict : Value → Bool
  | .vdict _ => true
  | _ => false

/-- Extract the entries of a dict value, `none` when not a dict. -/
def Value.asDict : Value → Option (List (String × Value))
  | .vdict d => some d
  | _ => none

/-- Python truthiness for the embedded values (used by `if graph_hash and ...`). -/
def Value.truthy : Value → Bool
  | .vnone => false
  | .vbool b => b
  | .vnat n => n ≠ 0
  | .vstr s => s ≠ ""
  | .vlist l => !l.isEmpty
  | .vdict d => !d.isEmpty

/-- Association-list lookup: first binding for the key. -/
def lookupA (l : List (String × Value)) (k : String) : Option Value :=
  match l with
  | [] => none
  | (k', v) :: rest => if k' = k then some v else lookupA rest k

/-- Association-list update with dict semantics: replace the binding for `k`
if present, else append at the end. Mirrors `d[k] = v` on a Python dict. -/
def insertA (l : List (String × Value)) (k : String) (v : Value) : List (String × Value) :=
  match l with
  | [] => [(k, v)]
  | (k', v') :: rest => if k' = k then (k, v) :: rest else (k', v') :: insertA rest k v

theorem lookupA_insertA_self (l : List (String × Value)) (k : String) (v : Value) :
    lookupA (insertA l k v) k = some v := by
  induction l with
  | nil => simp [insertA, lookupA]
  | cons p rest ih =>
    obtain ⟨k', v'⟩ := p
    by_cases h : k' = k
    · simp [insertA, lookupA, h]
    · simp [insertA, lookupA, h, ih]

theorem lookupA_insertA_ne (l : List (String × Value)) (k k' : String) (v : Value)
    (h : k' ≠ k) : lookupA (insertA l k v) k' = lookupA l k' := by
  induction l with
  | nil => simp [insertA, lookupA, Ne.symm h]
  | cons p rest ih =>
    obtain ⟨k0, v0⟩ := p
    by_cases h0 : k0 = k
    · subst h0
      simp [insertA, lookupA, Ne.symm h]
    · simp [insertA, lookupA, h0, ih]

/-- Shared state: the concurrency-safe key/value store, embedded as the
key→value mapping it holds. -/
abbrev SharedState := List (String × Value)

/-- Modelled from the spec: the reserved shared-state key for executor states
(`EXECUTOR_STATE_KEY` from `_const`, a module not under `src/`): "a reserved
shared-state key ... distinct from user keys". Only its identity matters here. -/
def EXECUTOR_STATE_KEY : String := "_executor_state"

/-- Python-class taxonomy of the exceptions the runner's handlers distinguish:
`ValueError` (re-raised by `restore_from_checkpoint`) versus every other
exception class (caught there). -/
inductive PyErr where
  | valueError (msg : String)
  | otherError (msg : String)
deriving DecidableEq, Repr

/-- `Runner._set_executor_state`: read the mapping stored under
`EXECUTOR_STATE_KEY` (defaulting to `{}` when absent), fail with `ValueError`
when it is not a dict, else replace the entry for `executor_id` and store the
mapping back. -/
def setExecutorState (ss : SharedState) (executorId : String)
    (state : List (String × Value)) : Except PyErr SharedState :=
  let existingStates : Value :=
    match lookupA ss EXECUTOR_STATE_KEY with
    | some v => v
    | none => Value.vdict []
  match existingStates with
  | .vdict d =>
      .ok (insertA ss EXECUTOR_STATE_KEY (.vdict (insertA d executorId (.vdict state))))
  | _ => .error (.valueError "Existing executor states in shared state is not a dictionary.")

/-- **C10.** `_set_executor_state(executor_id, state)`: when the value stored
under `EXECUTOR_STATE_KEY` is absent or a dict `d`, the call succeeds, the
entry for `executor_id` becomes `state`, every other executor id keeps its
binding from `d` (or stays absent when the key was absent), and every other
shared-state key is untouched; when the stored value is not a dict, the call
raises `ValueError` and no new shared state is produced. -/
theorem set_executor_state_frame (ss : SharedState) (executorId : String)
    (state : List (String × Value)) :
    (∀ d, (lookupA ss EXECUTOR_STATE_KEY = none ∧ d = []) ∨
        lookupA ss EXECUTOR_STATE_KEY = some (.vdict d) →
      ∃ ss', setExecutorState ss executorId state = .ok ss' ∧
        (∃ d', lookupA ss' EXECUTOR_STATE_KEY = some (.vdict d') ∧
          lookupA d' executorId = some (.vdict state) ∧
          ∀ otherId, otherId ≠ executorId → lookupA d' otherId = lookupA d otherId) ∧
        ∀ k, k ≠ EXECUTOR_STATE_KEY → lookupA ss' k = lookupA ss k) ∧
    (∀ v, lookupA ss EXECUTOR_STATE_KEY = some v → v.isDict = false →
      ∃ msg, setExecutorState ss executorId state = .error (.valueError msg)) := by
  constructor
  · intro d hd
    rcases hd with ⟨hnone, hdnil⟩ | hsome
    · subst hdnil
      refine ⟨insertA ss EXECUTOR_STATE_KEY (.vdict (insertA [] executorId (.vdict state))),
        ?_, ⟨insertA [] executorId (.vdict state), ?_, ?_, ?_⟩, ?_⟩
      · simp [setExecutorState, hnone]
      · exact lookupA_insertA_self ..
      · exact lookupA_insertA_self ..
      · intro otherId hne
        exact lookupA_insertA_ne [] executorId otherId (.vdict state) hne
      · intro k hk
        exact lookupA_insertA_ne ss EXECUTOR_STATE_KEY k _ hk
    · refine ⟨insertA ss EXECUTOR_STATE_KEY (.vdict (insertA d executorId (.vdict state))),
        ?_, ⟨insertA d executorId (.vdict state), ?_, ?_, ?_⟩, ?_⟩
      · simp [setExecutorState, hsome]
      · exact lookupA_insertA_self ..
      · exact lookupA_insertA_self ..
      · intro otherId hne
        exact lookupA_insertA_ne d executorId otherId (.vdict state) hne
      · intro k hk
        exact lookupA_insertA_ne ss EXECUTOR_STATE_KEY k _ hk
  · intro v hv hnd
    refine ⟨"Existing executor states in shared state is not a dictionary.", ?_⟩
    cases v with
    | vdict d => simp [Value.isDict] at hnd
    | vnone => simp [setExecutorState, hv]
    | vbool b => simp [setExecutorState, hv]
    | vnat n => simp [setExecutorState, hv]
    | vstr s => simp [setExecutorState, hv]
    | vlist l => simp [setExecutorState, hv]

/-- Witness for C10: concrete shared state with one other executor's state and
one user key; and a concrete non-dict failure case. -/
theorem set_executor_state_frame_witness :
    (∃ ss', setExecutorState [("user", .vnat 7),
        (EXECUTOR_STATE_KEY, .vdict [("other", .vdict [("k", .vnat 1)])])] "ex1" [("s", .vnat 2)]
        = .ok ss' ∧
      (∃ d', lookupA ss' EXECUTOR_STATE_KEY = some (.vdict d') ∧
        lookupA d' "ex1" = some (.vdict [("s", .vnat 2)]) ∧
        ∀ otherId, otherId ≠ "ex1" →
          lookupA d' otherId = lookupA [("other", .vdict [("k", .vnat 1)])] otherId) ∧
      ∀ k, k ≠ EXECUTOR_STATE_KEY →
        lookupA ss' k = lookupA [("user", .vnat 7),
          (EXECUTOR_STATE_KEY, .vdict [("other", .vdict [("k", .vnat 1)])])] k) ∧
    (∃ msg, setExecutorState [(EXECUTOR_STATE_KEY, .vstr "bad")] "ex1" []
        = .error (.valueError msg)) := by
  constructor
  · exact (set_executor_state_frame
      [("user", .vnat 7), (EXECUTOR_STATE_KEY, .vdict [("other", .vdict [("k", .vnat 1)])])]
      "ex1" [("s", .vnat 2)]).1 [("other", .vdict [("k", .vnat 1)])] (Or.inr (by rfl))
  · exact (set_executor_state_frame [(EXECUTOR_STATE_KEY, .vstr "bad")] "ex1" []).2
      (.vstr "bad") (by rfl) (by rfl)

/-- An executor as the runner sees it through the duck-typed hooks: the field
`snapshot_state` is `some r` when the attribute exists and is callable (`r`
being the call's outcome: a raised exception or the returned value); `state`
is the plain attribute of that name; `restore_state` models the restore hook
the same way (outcome of calling it on the stored state). -/
structure Executor where
  snapshot_state : Option (Except PyErr Value)
  state : Option Value
  restore_state : Option (Except PyErr Unit)

/-- The executor-state dict chosen by `Runner._auto_snapshot_executor_states`
for one executor: the callable `snapshot_state` hook's result when it returns
a dict; else the plain `state` attribute when it is a dict; `none` when the
hook throws (exception caught, state omitted) or no dict is available. -/
def snapshotOf (e : Executor) : Option (List (String × Value)) :=
  match e.snapshot_state with
  | some (.ok v) => v.asDict
  | some (.error _) => none
  | none =>
    match e.state with
    | some v => v.asDict
    | none => none

/-- `Runner._auto_snapshot_executor_states`: walk the executors in order,
persisting each dict snapshot via `_set_executor_state` and swallowing
persistence failures (logged); executors with no dict snapshot are skipped. -/
def autoSnapshotExecutorStates (executors : List (String × Executor))
    (ss : SharedState) : SharedState :=
  executors.foldl (fun acc pr =>
    match snapshotOf pr.2 with
    | none => acc
    | some d =>
      match setExecutorState acc pr.1 d with
      | .ok acc' => acc'
      | .error _ => acc) ss

/-- The try body of `Runner._create_checkpoint_if_enabled`: auto-snapshot
executor states, then ask the context to create the checkpoint
(`createResult` is the oracle outcome of `ctx.create_checkpoint`, which may
throw). -/
def createCheckpointAttempt (createResult : Except PyErr String)
    (executors : List (String × Executor)) (ss : SharedState) :
    Except PyErr (Option String × SharedState) := do
  let ss' := autoSnapshotExecutorStates executors ss
  let cid ← createResult
  return (some cid, ss')

/-- `Runner._create_checkpoint_if_enabled`: `None` when checkpointing is off;
otherwise run the body and swallow any failure, returning `None` while
keeping the shared-state mutations already made before the failure. -/
def createCheckpointIfEnabled (hasCheckpointing : Bool)
    (createResult : Except PyErr String) (executors : List (String × Executor))
    (ss : SharedState) : Option String × SharedState :=
  if !hasCheckpointing then (none, ss)
  else
    match createCheckpointAttempt createResult executors ss with
    | .ok r => r
    | .error _ => (none, autoSnapshotExecutorStates executors ss)

theorem setExecutorState_ok_none {ss : SharedState} {i : String}
    {st : List (String × Value)} (h : lookupA ss EXECUTOR_STATE_KEY = none) :
    setExecutorState ss i st
      = .ok (insertA ss EXECUTOR_STATE_KEY (.vdict (insertA [] i (.vdict st)))) := by
  simp [setExecutorState, h]

theorem setExecutorState_ok_dict {ss : SharedState} {d : List (String × Value)}
    {i : String} {st : List (String × Value)}
    (h : lookupA ss EXECUTOR_STATE_KEY = some (.vdict d)) :
    setExecutorState ss i st
      = .ok (insertA ss EXECUTOR_STATE_KEY (.vdict (insertA d i (.vdict st)))) := by
  simp [setExecutorState, h]

theorem setExecutorState_err {ss : SharedState} {v : Value}
    (hv : lookupA ss EXECUTOR_STATE_KEY = some v) (hnd : v.isDict = false)
    (i : String) (st : List (String × Value)) :
    setExecutorState ss i st
      = .error (.valueError "Existing executor states in shared state is not a dictionary.") := by
  cases v <;> simp_all [setExecutorState, Value.isDict]

/-- The executor-state slot stays absent-or-dict across runner operations. -/
def execStatesWF (ss : SharedState) : Prop :=
  lookupA ss EXECUTOR_STATE_KEY = none ∨
    ∃ d, lookupA ss EXECUTOR_STATE_KEY = some (.vdict d)

theorem autoSnapshot_cons (pr : String × Executor) (rest : List (String × Executor))
    (ss : SharedState) :
    autoSnapshotExecutorStates (pr :: rest) ss =
      autoSnapshotExecutorStates rest
        (match snapshotOf pr.2 with
         | none => ss
         | some d =>
           match setExecutorState ss pr.1 d with
           | .ok ss' => ss'
           | .error _ => ss) := rfl

theorem autoSnapshot_append (l1 l2 : List (String × Executor)) (ss : SharedState) :
    autoSnapshotExecutorStates (l1 ++ l2) ss
      = autoSnapshotExecutorStates l2 (autoSnapshotExecutorStates l1 ss) := by
  simp [autoSnapshotExecutorStates, List.foldl_append]

theorem autoSnapshot_cons_skip (pr : String × Executor) (rest : List (String × Executor))
    (ss : SharedState) (h : snapshotOf pr.2 = none) :
    autoSnapshotExecutorStates (pr :: rest) ss = autoSnapshotExecutorStates rest ss := by
  rw [autoSnapshot_cons, h]

theorem autoSnapshot_cons_ok (pr : String × Executor) (rest : List (String × Executor))
    (ss ss' : SharedState) (d : List (String × Value)) (h : snapshotOf pr.2 = some d)
    (h2 : setExecutorState ss pr.1 d = .ok ss') :
    autoSnapshotExecutorStates (pr :: rest) ss = autoSnapshotExecutorStates rest ss' := by
  rw [autoSnapshot_cons, h]
  refine congrArg (autoSnapshotExecutorStates rest) ?_
  show (match setExecutorState ss pr.1 d with
        | Except.ok ss' => ss'
        | Except.error _ => ss) = ss'
  rw [h2]

theorem autoSnapshot_cons_err (pr : String × Executor) (rest : List (String × Executor))
    (ss : SharedState) (d : List (String × Value)) (e : PyErr)
    (h : snapshotOf pr.2 = some d) (h2 : setExecutorState ss pr.1 d = .error e) :
    autoSnapshotExecutorStates (pr :: rest) ss = autoSnapshotExecutorStates rest ss := by
  rw [autoSnapshot_cons, h]
  refine congrArg (autoSnapshotExecutorStates rest) ?_
  show (match setExecutorState ss pr.1 d with
        | Except.ok ss' => ss'
        | Except.error _ => ss) = ss
  rw [h2]

theorem autoSnapshot_WF (executors : List (String × Executor)) :
    ∀ ss : SharedState, execStatesWF ss →
      execStatesWF (autoSnapshotExecutorStates executors ss) := by
  induction executors with
  | nil => intro ss h; exact h
  | cons pr rest ih =>
    intro ss h
    cases hs : snapshotOf pr.2 with
    | none => rw [autoSnapshot_cons_skip pr rest ss hs]; exact ih ss h
    | some d =>
      rcases h with h0 | ⟨d0, h0⟩
      · rw [autoSnapshot_cons_ok pr rest ss _ d hs (setExecutorState_ok_none h0)]
        exact ih _ (Or.inr ⟨_, lookupA_insertA_self ..⟩)
      · rw [autoSnapshot_cons_ok pr rest ss _ d hs (setExecutorState_ok_dict h0)]
        exact ih _ (Or.inr ⟨_, lookupA_insertA_self ..⟩)

theorem autoSnapshot_skip (pre post : List (String × Executor)) (badId : String)
    (bad : Executor) (h : snapshotOf bad = none) (ss : SharedState) :
    autoSnapshotExecutorStates (pre ++ (badId, bad) :: post) ss
      = autoSnapshotExecutorStates (pre ++ post) ss := by
  rw [autoSnapshot_append, autoSnapshot_append, autoSnapshot_cons_skip _ _ _ h]

theorem autoSnapshot_last_good (l : List (String × Executor)) (gid : String)
    (g : Executor) (d : List (String × Value)) (ss : SharedState)
    (hwf : execStatesWF ss) (hg : snapshotOf g = some d) :
    ∃ d', lookupA (autoSnapshotExecutorStates (l ++ [(gid, g)]) ss) EXECUTOR_STATE_KEY
        = some (.vdict d') ∧ lookupA d' gid = some (.vdict d) := by
  rw [autoSnapshot_append]
  have hwf1 := autoSnapshot_WF l ss hwf
  rcases hwf1 with h0 | ⟨d0, h0⟩
  · rw [autoSnapshot_cons_ok _ _ _ _ d hg (setExecutorState_ok_none h0)]
    exact ⟨_, lookupA_insertA_self .., lookupA_insertA_self ..⟩
  · rw [autoSnapshot_cons_ok _ _ _ _ d hg (setExecutorState_ok_dict h0)]
    exact ⟨_, lookupA_insertA_self .., lookupA_insertA_self ..⟩

theorem autoSnapshot_nonDict (executors : List (String × Executor))
    (ss : SharedState) (v : Value) (hv : lookupA ss EXECUTOR_STATE_KEY = some v)
    (hnd : v.isDict = false) :
    autoSnapshotExecutorStates executors ss = ss := by
  induction executors with
  | nil => rfl
  | cons pr rest ih =>
    cases hs : snapshotOf pr.2 with
    | none => rw [autoSnapshot_cons_skip pr rest ss hs]; exact ih
    | some d =>
      rw [autoSnapshot_cons_err pr rest ss d _ hs (setExecutorState_err hv hnd pr.1 d)]
      exact ih

/-- **C7.** Checkpoint creation is best-effort: (1) an executor whose
`snapshot_state` hook throws contributes nothing — the whole checkpoint
attempt behaves exactly as if that executor were absent, so every other
executor's state is still persisted; (2) a failure in checkpoint creation is
swallowed: the run gets back `None` (no exception) and keeps running with the
snapshotted shared state; (3) an executor with a good dict snapshot has its
state persisted under `EXECUTOR_STATE_KEY`; (4) executor-state persistence
failures are swallowed for every executor, leaving shared state unchanged. -/
theorem checkpoint_best_effort :
    (∀ (hasCkpt : Bool) (createResult : Except PyErr String)
        (pre post : List (String × Executor)) (badId : String) (bad : Executor)
        (ss : SharedState) (exc : PyErr), bad.snapshot_state = some (.error exc) →
      createCheckpointIfEnabled hasCkpt createResult (pre ++ (badId, bad) :: post) ss
        = createCheckpointIfEnabled hasCkpt createResult (pre ++ post) ss) ∧
    (∀ (executors : List (String × Executor)) (ss : SharedState) (exc : PyErr)
        (createResult : Except PyErr String), createResult = .error exc →
      createCheckpointIfEnabled true createResult executors ss
        = (none, autoSnapshotExecutorStates executors ss)) ∧
    (∀ (l : List (String × Executor)) (gid : String) (g : Executor)
        (d : List (String × Value)) (ss : SharedState),
        execStatesWF ss → snapshotOf g = some d →
      ∃ d', lookupA (autoSnapshotExecutorStates (l ++ [(gid, g)]) ss) EXECUTOR_STATE_KEY
          = some (.vdict d') ∧ lookupA d' gid = some (.vdict d)) ∧
    (∀ (executors : List (String × Executor)) (ss : SharedState) (v : Value),
        lookupA ss EXECUTOR_STATE_KEY = some v → v.isDict = false →
      autoSnapshotExecutorStates executors ss = ss) := by
  refine ⟨?_, ?_, ?_, ?_⟩
  · intro hasCkpt createResult pre post badId bad ss exc hbad
    have hnone : snapshotOf bad = none := by simp [snapshotOf, hbad]
    simp [createCheckpointIfEnabled, createCheckpointAttempt,
      autoSnapshot_skip pre post badId bad hnone ss]
  · intro executors ss exc createResult hcr
    simp [createCheckpointIfEnabled, createCheckpointAttempt, hcr]
  · intro l gid g d ss hwf hg
    exact autoSnapshot_last_good l gid g d ss hwf hg
  · intro executors ss v hv hnd
    exact autoSnapshot_nonDict executors ss v hv hnd

/-- A concrete executor whose snapshot hook returns a dict. -/
def goodExec : Executor := ⟨some (.ok (.vdict [("n", .vnat 1)])), none, none⟩

/-- A concrete executor whose snapshot hook throws. -/
def badExec : Executor := ⟨some (.error (.otherError "boom")), none, none⟩

/-- Witness for C7 at concrete executors, storage failure, and states. -/
theorem checkpoint_best_effort_witness :
    (createCheckpointIfEnabled true (.error (.otherError "disk"))
        ([] ++ ("bad", badExec) :: [("good", goodExec)]) []
      = createCheckpointIfEnabled true (.error (.otherError "disk")) ([] ++ [("good", goodExec)]) []) ∧
    (createCheckpointIfEnabled true (.error (.otherError "disk")) [("good", goodExec)] []
      = (none, autoSnapshotExecutorStates [("good", goodExec)] [])) ∧
    (∃ d', lookupA (autoSnapshotExecutorStates ([] ++ [("g2", goodExec)]) []) EXECUTOR_STATE_KEY
        = some (.vdict d') ∧ lookupA d' "g2" = some (.vdict [("n", .vnat 1)])) ∧
    (autoSnapshotExecutorStates [("good", goodExec)] [(EXECUTOR_STATE_KEY, .vstr "oops")]
      = [(EXECUTOR_STATE_KEY, .vstr "oops")]) := by
  refine ⟨?_, ?_, ?_, ?_⟩
  · exact checkpoint_best_effort.1 true (.error (.otherError "disk")) [] [("good", goodExec)]
      "bad" badExec [] (.otherError "boom") rfl
  · exact checkpoint_best_effort.2.1 [("good", goodExec)] [] (.otherError "disk")
      (.error (.otherError "disk")) rfl
  · exact checkpoint_best_effort.2.2.1 [] "g2" goodExec [("n", .vnat 1)] [] (Or.inl rfl) rfl
  · exact checkpoint_best_effort.2.2.2 [("good", goodExec)] [(EXECUTOR_STATE_KEY, .vstr "oops")]
      (.vstr "oops") rfl rfl

/-- Modelled from the spec: the model-instance marker key produced by
checkpoint encoding (`MODEL_MARKER` from `_checkpoint_encoding`, a module not
under `src/`). Only its identity as a dict key matters here. -/
def MODEL_MARKER : String := "__af_model__"

/-- Modelled from the spec: the dataclass marker key produced by checkpoint
encoding (`DATACLASS_MARKER` from `_checkpoint_encoding`, not under `src/`). -/
def DATACLASS_MARKER : String := "__af_dataclass__"

/-- `k in d` on a Python dict: key containment. -/
def hasKeyA (l : List (String × Value)) (k : String) : Bool :=
  (lookupA l k).isSome

/-- A queued message: opaque payload plus source and optional target ids. -/
structure Message where
  data : Value
  sourceId : String
  targetId : Option Value

/-- `_normalize_message_payload` inside `Runner._run_iteration`: a dict
payload carrying a checkpoint-encoding marker is decoded (`decode` is the
oracle for `decode_checkpoint_value`, which may throw; the exception is
caught and the payload left as-is); every other payload passes unchanged. -/
def normalizeMessagePayload (decode : Value → Except PyErr Value) (data : Value) : Value :=
  match data with
  | .vdict d =>
    if hasKeyA d MODEL_MARKER || hasKeyA d DATACLASS_MARKER then
      match decode (.vdict d) with
      | .ok decoded => decoded
      | .error _ => .vdict d
    else .vdict d
  | _ => data

/-- Lookup in the parsed source-id → edge-runners map (edge runners are
abstract identifiers; their behavior lives outside the runner module). -/
def lookupER (l : List (String × List String)) (k : String) : Option (List String) :=
  match l with
  | [] => none
  | (k', v) :: rest => if k' = k then some v else lookupER rest k

/-- `_deliver_messages` for one drained source bucket: with no associated
edge runners the whole bucket is dropped (a warning is logged, nothing is
delivered, nothing raised); otherwise each message is normalized and handed
to every edge runner associated with the source. A delivery is the
(edge-runner, message) pair passed to `EdgeRunner.send_message`. -/
def deliverMessages (erMap : List (String × List String))
    (decode : Value → Except PyErr Value) (sourceId : String)
    (msgs : List Message) : List (String × Message) :=
  let associated := (lookupER erMap sourceId).getD []
  if associated.isEmpty then []
  else msgs.flatMap (fun m =>
    associated.map (fun er => (er, { m with data := normalizeMessagePayload decode m.data })))

/-- `Runner._run_iteration`: drain the per-source buckets and deliver each
bucket through its associated edge runners; the list collects every delivery
made during the superstep. -/
def runIterationDeliveries (erMap : List (String × List String))
    (decode : Value → Except PyErr Value)
    (buckets : List (String × List Message)) : List (String × Message) :=
  buckets.flatMap (fun b => deliverMessages erMap decode b.1 b.2)

/-- **C9.** A drained source bucket with no registered edge runner (missing
from the map, or mapped to an empty list) is dropped whole: no delivery
happens for it, no error is raised, and the deliveries of the other source
buckets of the same superstep are exactly what they would have been without
that bucket. -/
theorem no_edge_runner_drops_bucket :
    ∀ (erMap : List (String × List String)) (decode : Value → Except PyErr Value)
      (pre post : List (String × List Message)) (srcId : String) (msgs : List Message),
      (lookupER erMap srcId = none ∨ lookupER erMap srcId = some []) →
      runIterationDeliveries erMap decode (pre ++ (srcId, msgs) :: post)
        = runIterationDeliveries erMap decode (pre ++ post) := by
  intro erMap decode pre post srcId msgs h
  have hempty : deliverMessages erMap decode srcId msgs = [] := by
    rcases h with h | h <;> simp [deliverMessages, h]
  simp [runIterationDeliveries, hempty]

/-- Witness for C9: a two-bucket superstep where the bucket of source "B" has
no edge runner; its message is dropped while "A"'s delivery is unaffected. -/
theorem no_edge_runner_drops_bucket_witness :
    runIterationDeliveries [("A", ["E1"])] (fun v => .ok v)
        ([("A", [⟨.vnat 1, "A", none⟩])] ++ ("B", [⟨.vnat 2, "B", none⟩]) :: [])
      = runIterationDeliveries [("A", ["E1"])] (fun v => .ok v)
        ([("A", [⟨.vnat 1, "A", none⟩])] ++ []) :=
  no_edge_runner_drops_bucket [("A", ["E1"])] (fun v => .ok v)
    [("A", [⟨.vnat 1, "A", none⟩])] [] "B" [⟨.vnat 2, "B", none⟩] (Or.inl rfl)

/-- **C8.** Payload normalization before delivery: a dict payload carrying a
checkpoint-encoding marker whose decode succeeds is replaced by the decoded
structured value; a payload that is not a dict, or a dict without a marker,
is delivered unchanged; and every message delivered by a superstep went
through this normalization of its payload. -/
theorem payload_normalized_before_delivery :
    (∀ (decode : Value → Except PyErr Value) (d : List (String × Value)) (v : Value),
      (hasKeyA d MODEL_MARKER || hasKeyA d DATACLASS_MARKER) = true →
      decode (.vdict d) = .ok v →
      normalizeMessagePayload decode (.vdict d) = v) ∧
    (∀ (decode : Value → Except PyErr Value) (data : Value),
      data.isDict = false → normalizeMessagePayload decode data = data) ∧
    (∀ (decode : Value → Except PyErr Value) (d : List (String × Value)),
      (hasKeyA d MODEL_MARKER || hasKeyA d DATACLASS_MARKER) = false →
      normalizeMessagePayload decode (.vdict d) = .vdict d) ∧
    (∀ (erMap : List (String × List String)) (decode : Value → Except PyErr Value)
        (buckets : List (String × List Message)) (er : String) (m : Message),
      (er, m) ∈ runIterationDeliveries erMap decode buckets →
      ∃ src msgs m0, (src, msgs) ∈ buckets ∧ m0 ∈ msgs ∧
        m = { m0 with data := normalizeMessagePayload decode m0.data }) := by
  refine ⟨?_, ?_, ?_, ?_⟩
  · intro decode d v hmark hdec
    simp [normalizeMessagePayload, hmark, hdec]
  · intro decode data hnd
    cases data <;> simp_all [normalizeMessagePayload, Value.isDict]
  · intro decode d hmark
    simp [normalizeMessagePayload, hmark]
  · intro erMap decode buckets er m hm
    simp only [runIterationDeliveries, List.mem_flatMap] at hm
    obtain ⟨b, hb, hmb⟩ := hm
    simp only [deliverMessages] at hmb
    by_cases hc : ((lookupER erMap b.1).getD []).isEmpty = true
    · rw [if_pos hc] at hmb
      exact absurd hmb (List.not_mem_nil _)
    · rw [if_neg hc] at hmb
      simp only [List.mem_flatMap, List.mem_map] at hmb
      obtain ⟨m0, hm0, er', her', heq⟩ := hmb
      refine ⟨b.1, b.2, m0, hb, hm0, ?_⟩
      exact (congrArg Prod.snd heq).symm

/-- Witness for C8: a marked dict payload decoded back to a structured value,
a plain payload left alone, an unmarked dict left alone, and a concrete
delivered message that carries the normalized payload. -/
theorem payload_normalized_before_delivery_witness :
    (normalizeMessagePayload (fun _ => .ok (.vstr "decoded"))
        (.vdict [(MODEL_MARKER, .vnone)]) = .vstr "decoded") ∧
    (normalizeMessagePayload (fun _ => .ok (.vstr "decoded")) (.vnat 3) = .vnat 3) ∧
    (normalizeMessagePayload (fun _ => .ok (.vstr "decoded"))
        (.vdict [("plain", .vnat 1)]) = .vdict [("plain", .vnat 1)]) ∧
    (∃ src msgs m0, (src, msgs) ∈ [("A", [(⟨.vdict [(MODEL_MARKER, .vnone)], "A", none⟩ : Message)])] ∧
      m0 ∈ msgs ∧
      (⟨.vstr "decoded", "A", none⟩ : Message)
        = { m0 with data := normalizeMessagePayload (fun _ => .ok (.vstr "decoded")) m0.data }) := by
  refine ⟨?_, ?_, ?_, ?_⟩
  · exact payload_normalized_before_delivery.1 (fun _ => .ok (.vstr "decoded"))
      [(MODEL_MARKER, .vnone)] (.vstr "decoded") rfl rfl
  · exact payload_normalized_before_delivery.2.1 (fun _ => .ok (.vstr "decoded")) (.vnat 3) rfl
  · exact payload_normalized_before_delivery.2.2.1 (fun _ => .ok (.vstr "decoded"))
      [("plain", .vnat 1)] rfl
  · exact payload_normalized_before_delivery.2.2.2 [("A", ["E1"])]
      (fun _ => .ok (.vstr "decoded"))
      [("A", [⟨.vdict [(MODEL_MARKER, .vnone)], "A", none⟩])] "E1"
      ⟨.vstr "decoded", "A", none⟩ (by simp [runIterationDeliveries, deliverMessages,
        normalizeMessagePayload, hasKeyA, lookupA, lookupER, MODEL_MARKER])

/-- A workflow checkpoint as `restore_from_checkpoint` reads it: the fields
the runner consumes. `metadata` is `none` when the attribute is `None`. -/
structure Checkpoint where
  workflow_id : String
  iteration_count : Nat
  shared_state : Value
  metadata : Option (List (String × Value))

/-- `(checkpoint.metadata or {}).get("graph_signature")`. -/
def checkpointGraphSignature (cp : Checkpoint) : Option Value :=
  lookupA (cp.metadata.getD []) "graph_signature"

/-- Truthiness of `self.graph_signature_hash : str | None`. -/
def truthyHash : Option String → Bool
  | none => false
  | some s => s ≠ ""

/-- Truthiness of the metadata value `checkpoint_hash` (`None` when absent). -/
def truthyOptV : Option Value → Bool
  | none => false
  | some v => v.truthy

/-- Python `graph_hash != checkpoint_hash` for a string against an arbitrary
metadata value: unequal unless the value is the equal string. -/
def Value.eqStr : Value → String → Bool
  | .vstr s', s => s' = s
  | _, _ => false

/-- The guard `graph_hash and checkpoint_hash and graph_hash != checkpoint_hash`
of `restore_from_checkpoint`. -/
def topologyMismatch (graphHash : Option String) (cpHash : Option Value) : Bool :=
  truthyHash graphHash && truthyOptV cpHash &&
    !(match graphHash, cpHash with
      | some g, some v => v.eqStr g
      | _, _ => false)

/-- The descriptive error raised on a graph-signature mismatch. -/
def topologyMismatchMsg : String :=
  "Workflow graph has changed since the checkpoint was created. Please rebuild the original workflow before resuming."

/-- The runner attributes `restore_from_checkpoint` reads. -/
structure RestoreRunner where
  graph_signature_hash : Option String
  executors : List (String × Executor)

/-- Executor lookup (`self._executors.get(executor_id)`). -/
def lookupExec (l : List (String × Executor)) (k : String) : Option Executor :=
  match l with
  | [] => none
  | (k', v) :: rest => if k' = k then some v else lookupExec rest k

/-- The per-entry loop of `Runner._restore_executor_states`: each stored
state must be a dict, its executor must exist, and a `restore_state` hook
that throws is re-raised as `ValueError`; executors without the hook are
skipped. -/
def restoreExecutorStatesLoop (executors : List (String × Executor)) :
    List (String × Value) → Except PyErr Unit
  | [] => .ok ()
  | (execId, st) :: rest =>
    match st with
    | .vdict _ =>
      match lookupExec executors execId with
      | none => .error (.valueError ("Executor " ++ execId ++ " not found during state restoration."))
      | some e =>
        match e.restore_state with
        | some (.error _) =>
          .error (.valueError ("Executor " ++ execId ++ " restore_state failed."))
        | _ => restoreExecutorStatesLoop executors rest
    | _ => .error (.valueError ("Executor state for " ++ execId ++ " is not a dictionary. Unable to restore."))

/-- `Runner._restore_executor_states` over the freshly imported shared state:
nothing to do without the reserved key; a non-dict value there is a
`ValueError`; otherwise walk the stored entries. -/
def restoreExecutorStates (executors : List (String × Executor))
    (ss : SharedState) : Except PyErr Unit :=
  match lookupA ss EXECUTOR_STATE_KEY with
  | none => .ok ()
  | some (.vdict states) => restoreExecutorStatesLoop executors states
  | some _ => .error (.valueError "Executor states in shared state is not a dictionary. Unable to restore.")

/-- Oracle outcomes of the external collaborators touched by one
`restore_from_checkpoint` call: context/storage checkpoint loading, the
decode-plus-import of the checkpoint's shared state, and
`ctx.apply_checkpoint`; each may throw. -/
structure RestoreEnv where
  ctxHasCheckpointing : Bool
  ctxLoad : Except PyErr (Option Checkpoint)
  storage : Option (Except PyErr (Option Checkpoint))
  importResult : Except PyErr SharedState
  applyResult : Except PyErr Unit

/-- The try body of `Runner.restore_from_checkpoint`: load (context first,
else external storage, else report failure), check topology, import shared
state, restore executor states, apply the checkpoint. `.ok b` is the boolean
the body returns; `.error` is an exception escaping the body. -/
def restoreBody (r : RestoreRunner) (env : RestoreEnv) : Except PyErr Bool :=
  match (if env.ctxHasCheckpointing then some env.ctxLoad else env.storage) with
  | none => .ok false
  | some loadRes =>
    match loadRes with
    | .error e => .error e
    | .ok none => .ok false
    | .ok (some cp) =>
      if topologyMismatch r.graph_signature_hash (checkpointGraphSignature cp) then
        .error (.valueError topologyMismatchMsg)
      else
        match env.importResult with
        | .error e => .error e
        | .ok ss =>
          match restoreExecutorStates r.executors ss with
          | .error e => .error e
          | .ok () =>
            match env.applyResult with
            | .error e => .error e
            | .ok () => .ok true

/-- `Runner.restore_from_checkpoint`: run the body under
`except ValueError: raise` / `except Exception: return False`. -/
def restoreFromCheckpoint (r : RestoreRunner) (env : RestoreEnv) : Except PyErr Bool :=
  match restoreBody r env with
  | .ok b => .ok b
  | .error (.valueError m) => .error (.valueError m)
  | .error (.otherError _) => .ok false

/-- **C4.** With a non-empty graph signature on the runner: a loaded
checkpoint whose metadata carries a different non-empty `graph_signature`
string makes restoration fail with the descriptive topology error, which
propagates; a checkpoint without a `graph_signature` skips topology
validation entirely and restoration proceeds (succeeding when the remaining
restore steps succeed). -/
theorem restore_topology_validation :
    (∀ (r : RestoreRunner) (env : RestoreEnv) (cp : Checkpoint) (g s : String),
      r.graph_signature_hash = some g → g ≠ "" →
      env.ctxHasCheckpointing = true → env.ctxLoad = .ok (some cp) →
      checkpointGraphSignature cp = some (.vstr s) → s ≠ "" → s ≠ g →
      restoreFromCheckpoint r env = .error (.valueError topologyMismatchMsg)) ∧
    (∀ (r : RestoreRunner) (env : RestoreEnv) (cp : Checkpoint) (g : String)
        (ss : SharedState),
      r.graph_signature_hash = some g →
      env.ctxHasCheckpointing = true → env.ctxLoad = .ok (some cp) →
      checkpointGraphSignature cp = none →
      env.importResult = .ok ss → restoreExecutorStates r.executors ss = .ok () →
      env.applyResult = .ok () →
      restoreFromCheckpoint r env = .ok true) := by
  constructor
  · intro r env cp g s hg hgne hctx hload hsig hsne hne
    have hmis : topologyMismatch r.graph_signature_hash (checkpointGraphSignature cp) = true := by
      simp [topologyMismatch, hg, hsig, truthyHash, truthyOptV, Value.truthy, Value.eqStr,
        hgne, hsne, hne]
    simp [restoreFromCheckpoint, restoreBody, hctx, hload, hmis]
  · intro r env cp g ss hg hctx hload hsig himp hres happ
    have hmis : topologyMismatch r.graph_signature_hash (checkpointGraphSignature cp) = false := by
      simp [topologyMismatch, hsig, truthyOptV]
    simp [restoreFromCheckpoint, restoreBody, hctx, hload, hmis, himp, hres, happ]

/-- Witness for C4: a mismatching signed checkpoint is refused with the
propagated descriptive error; an unsigned checkpoint restores successfully. -/
theorem restore_topology_validation_witness :
    (restoreFromCheckpoint ⟨some "hashA", []⟩
        ⟨true, .ok (some ⟨"wf", 3, .vnone, some [("graph_signature", .vstr "hashB")]⟩),
          none, .ok [], .ok ()⟩
      = .error (.valueError topologyMismatchMsg)) ∧
    (restoreFromCheckpoint ⟨some "hashA", []⟩
        ⟨true, .ok (some ⟨"wf", 3, .vnone, none⟩), none, .ok [], .ok ()⟩
      = .ok true) := by
  constructor
  · exact restore_topology_validation.1 ⟨some "hashA", []⟩
      ⟨true, .ok (some ⟨"wf", 3, .vnone, some [("graph_signature", .vstr "hashB")]⟩),
        none, .ok [], .ok ()⟩
      ⟨"wf", 3, .vnone, some [("graph_signature", .vstr "hashB")]⟩ "hashA" "hashB"
      rfl (by decide) rfl rfl rfl (by decide) (by decide)
  · exact restore_topology_validation.2 ⟨some "hashA", []⟩
      ⟨true, .ok (some ⟨"wf", 3, .vnone, none⟩), none, .ok [], .ok ()⟩
      ⟨"wf", 3, .vnone, none⟩ "hashA" [] rfl rfl rfl rfl rfl rfl rfl

/-- **C3 counterexample.** The claim says every failure other than the
topology-mismatch error — explicitly including malformed executor-state
records — is caught and reported as `False`. But `restore_from_checkpoint`
re-raises every `ValueError`, and `_restore_executor_states` raises
`ValueError` for malformed records: restoring a checkpoint whose decoded
shared state stores a non-dict under `EXECUTOR_STATE_KEY` propagates a
`ValueError` distinct from the topology-mismatch error instead of returning
`False`. -/
theorem restore_catch_all_counterexample :
    restoreFromCheckpoint ⟨none, []⟩
        ⟨true, .ok (some ⟨"wf", 0, .vnone, none⟩), none,
          .ok [(EXECUTOR_STATE_KEY, .vstr "bad")], .ok ()⟩
      = .error (.valueError "Executor states in shared state is not a dictionary. Unable to restore.")
    ∧ "Executor states in shared state is not a dictionary. Unable to restore."
      ≠ topologyMismatchMsg := by
  exact ⟨rfl, by decide⟩

/-- **C3 (amended).** Every failure of `restore_from_checkpoint` that is not
a `ValueError`-class error is caught and reported by returning `False`;
`ValueError`-class errors — the topology-mismatch error and the malformed or
unknown executor-state-record errors (including a throwing `restore_state`
hook) — propagate to the caller. -/
theorem restore_valueerror_dichotomy :
    (∀ (r : RestoreRunner) (env : RestoreEnv) (e : PyErr),
      restoreFromCheckpoint r env = .error e → ∃ m, e = .valueError m) ∧
    (∀ (r : RestoreRunner) (env : RestoreEnv) (m : String),
      restoreBody r env = .error (.otherError m) → restoreFromCheckpoint r env = .ok false) ∧
    (∀ (r : RestoreRunner) (env : RestoreEnv) (m : String),
      restoreBody r env = .error (.valueError m) →
      restoreFromCheckpoint r env = .error (.valueError m)) := by
  refine ⟨?_, ?_, ?_⟩
  · intro r env e h
    unfold restoreFromCheckpoint at h
    cases hb : restoreBody r env with
    | ok b => rw [hb] at h; exact absurd h (by simp)
    | error e' =>
      rw [hb] at h
      cases e' with
      | valueError m => exact ⟨m, by simpa using h.symm⟩
      | otherError m => exact absurd h (by simp)
  · intro r env m h
    simp [restoreFromCheckpoint, h]
  · intro r env m h
    simp [restoreFromCheckpoint, h]

/-- Witness for C3's amended claim: a decode failure of class other than
`ValueError` is swallowed into `False`; a propagated error is always a
`ValueError`. -/
theorem restore_valueerror_dichotomy_witness :
    (restoreFromCheckpoint ⟨none, []⟩
        ⟨true, .ok (some ⟨"wf", 0, .vnone, none⟩), none,
          .error (.otherError "decode failed"), .ok ()⟩
      = .ok false) ∧
    (∃ m, (PyErr.valueError "Executor ex restore_state failed.") = .valueError m) := by
  constructor
  · exact restore_valueerror_dichotomy.2.1 ⟨none, []⟩
      ⟨true, .ok (some ⟨"wf", 0, .vnone, none⟩), none,
        .error (.otherError "decode failed"), .ok ()⟩
      "decode failed" rfl
  · exact restore_valueerror_dichotomy.1 ⟨none, [("ex", ⟨none, none, some (.error (.otherError "boom"))⟩)]⟩
      ⟨true, .ok (some ⟨"wf", 0, .vnone, none⟩), none,
        .ok [(EXECUTOR_STATE_KEY, .vdict [("ex", .vdict [])])], .ok ()⟩
      (.valueError "Executor ex restore_state failed.") rfl

/-- Workflow events are opaque to the runner loop. -/
abbrev Event := Nat

/-- An error escaping a superstep's delivery task. -/
abbrev DeliveryErr := String

/-- Outcome of `_run_iteration` for one superstep: the events queued in the
context during the iteration (yielded by the polling loop and the trailing
drains), and either the escaping exception or the has-messages status left in
the context afterwards. -/
structure StepOutcome where
  events : List Event
  res : Except DeliveryErr Bool

/-- Oracle describing one run's interaction with the context and the graph:
events queued before the loop starts, the initial has-messages status, and
each superstep's outcome (indexed by the iteration counter at its start). -/
structure RunOracle where
  preEvents : List Event
  initialHasMessages : Bool
  step : Nat → StepOutcome

/-- The runner attributes driving `run_until_convergence`. -/
structure RunnerSt where
  running : Bool
  iteration : Nat
  maxIterations : Nat
  resumedFromCheckpoint : Bool
  hasCheckpointing : Bool

/-- The two checkpoint labels `run_until_convergence` uses. -/
inductive CkptLabel where
  | afterInitialExecution
  | superstep (n : Nat)
deriving DecidableEq, Repr

/-- Possible ends of `run_until_convergence`. -/
inductive RunOutcome where
  | ok
  | alreadyRunning
  | notConverged (limit : Nat)
  | deliveryFailure (e : DeliveryErr)
deriving DecidableEq, Repr

/-- Result of the `while` loop: yielded events, checkpoint attempts, the
failure that escaped delivery (if any), the iteration counter at exit, and
the has-messages status at exit (meaningful only without a failure). -/
structure LoopResult where
  trace : List Event
  checkpoints : List CkptLabel
  failure : Option DeliveryErr
  iteration : Nat
  hasMessages : Bool

/-- The `while self._iteration < self._max_iterations` loop: run the
superstep, yielding its events; on delivery failure flush those events and
stop with the failure; on success bump the iteration, attempt a
`superstep_{n}` checkpoint (recorded only when checkpointing is on), and
break when no messages remain. Fuel is `max_iterations - iteration`. -/
def runLoop (o : RunOracle) (hasCkpt : Bool) :
    Nat → Nat → Bool → LoopResult
  | iter, 0, hasMsgs => ⟨[], [], none, iter, hasMsgs⟩
  | iter, fuel + 1, _ =>
    let so := o.step iter
    match so.res with
    | .error e => ⟨so.events, [], some e, iter, true⟩
    | .ok hasMsgs' =>
      let ckpts : List CkptLabel := if hasCkpt then [.superstep (iter + 1)] else []
      if hasMsgs' then
        let rest := runLoop o hasCkpt (iter + 1) fuel hasMsgs'
        ⟨so.events ++ rest.trace, ckpts ++ rest.checkpoints, rest.failure,
          rest.iteration, rest.hasMessages⟩
      else
        ⟨so.events, ckpts, none, iter + 1, false⟩

/-- Result of one `run_until_convergence` call: the ordered events the
generator yields, the checkpoint attempts made, the outcome, and the runner
state afterwards. -/
structure RunResult where
  trace : List Event
  checkpoints : List CkptLabel
  outcome : RunOutcome
  final : RunnerSt

/-- Step 3 of `run_until_convergence`: the `after_initial_execution`
checkpoint attempt happens exactly when messages are pending, checkpointing
is enabled, and the runner did not resume from a checkpoint. -/
def initialCkpts (o : RunOracle) (s : RunnerSt) : List CkptLabel :=
  if o.initialHasMessages && s.hasCheckpointing then
    if !s.resumedFromCheckpoint then [.afterInitialExecution] else []
  else []

/-- The code after the `while` loop of `run_until_convergence`, plus the
`finally`: a delivery failure propagates (events already flushed into the
loop's trace); loop exhaustion with messages pending raises the convergence
error naming `max_iterations`; otherwise the run succeeded, resetting the
iteration counter and the resumed flag. The running flag is cleared on every
path. -/
def finishRun (s : RunnerSt) (pre : List Event) (ic : List CkptLabel)
    (lr : LoopResult) : RunResult :=
  match lr.failure with
  | some e =>
    ⟨pre ++ lr.trace, ic ++ lr.checkpoints, .deliveryFailure e,
      { s with running := false, iteration := lr.iteration }⟩
  | none =>
    if s.maxIterations ≤ lr.iteration ∧ lr.hasMessages = true then
      ⟨pre ++ lr.trace, ic ++ lr.checkpoints, .notConverged s.maxIterations,
        { s with running := false, iteration := lr.iteration }⟩
    else
      ⟨pre ++ lr.trace, ic ++ lr.checkpoints, .ok,
        { s with running := false, iteration := 0, resumedFromCheckpoint := false }⟩

/-- `Runner.run_until_convergence`: refuse when already running (before the
try, so the in-flight run's flag stays); else set the running flag, yield
pre-loop events, make the `after_initial_execution` checkpoint for a fresh
run with pending messages and checkpointing on, run the superstep loop, and
finish as `finishRun` describes. -/
def runUntilConvergence (o : RunOracle) (s : RunnerSt) : RunResult :=
  if s.running then ⟨[], [], .alreadyRunning, s⟩
  else
    finishRun s o.preEvents (initialCkpts o s)
      (runLoop o s.hasCheckpointing s.iteration
        (s.maxIterations - s.iteration) o.initialHasMessages)

theorem runLoop_zero (o : RunOracle) (c : Bool) (iter : Nat) (hm : Bool) :
    runLoop o c iter 0 hm = ⟨[], [], none, iter, hm⟩ := rfl

theorem runLoop_succ_error (o : RunOracle) (c : Bool) (iter fuel : Nat) (hm : Bool)
    (e : DeliveryErr) (h : (o.step iter).res = .error e) :
    runLoop o c iter (fuel + 1) hm = ⟨(o.step iter).events, [], some e, iter, true⟩ := by
  simp [runLoop, h]

theorem runLoop_succ_continue (o : RunOracle) (c : Bool) (iter fuel : Nat) (hm : Bool)
    (h : (o.step iter).res = .ok true) :
    runLoop o c iter (fuel + 1) hm =
      ⟨(o.step iter).events ++ (runLoop o c (iter + 1) fuel true).trace,
       (if c then [CkptLabel.superstep (iter + 1)] else [])
         ++ (runLoop o c (iter + 1) fuel true).checkpoints,
       (runLoop o c (iter + 1) fuel true).failure,
       (runLoop o c (iter + 1) fuel true).iteration,
       (runLoop o c (iter + 1) fuel true).hasMessages⟩ := by
  simp [runLoop, h]

theorem runLoop_succ_break (o : RunOracle) (c : Bool) (iter fuel : Nat) (hm : Bool)
    (h : (o.step iter).res = .ok false) :
    runLoop o c iter (fuel + 1) hm =
      ⟨(o.step iter).events, if c then [CkptLabel.superstep (iter + 1)] else [],
        none, iter + 1, false⟩ := by
  simp [runLoop, h]

theorem finishRun_flag (s : RunnerSt) (pre : List Event) (ic : List CkptLabel)
    (lr : LoopResult) :
    (finishRun s pre ic lr).final.running = false ∧
    (finishRun s pre ic lr).outcome ≠ .alreadyRunning := by
  rcases lr with ⟨tr, ck, fl, it, hmsg⟩
  cases fl with
  | some e => simp [finishRun]
  | none =>
    by_cases hc : s.maxIterations ≤ it ∧ hmsg = true <;> simp [finishRun, hc]

theorem run_eq (o : RunOracle) (s : RunnerSt) (h : s.running = false) :
    runUntilConvergence o s
      = finishRun s o.preEvents (initialCkpts o s)
          (runLoop o s.hasCheckpointing s.iteration
            (s.maxIterations - s.iteration) o.initialHasMessages) := by
  unfold runUntilConvergence
  rw [if_neg (by simp [h])]

theorem run_not_running (o : RunOracle) (s : RunnerSt) (h : s.running = false) :
    (runUntilConvergence o s).final.running = false ∧
    (runUntilConvergence o s).outcome ≠ .alreadyRunning := by
  rw [run_eq o s h]
  exact ⟨(finishRun_flag ..).1, (finishRun_flag ..).2⟩

/-- **C1.** Starting `run_until_convergence` on a runner whose run is in
flight fails with the concurrency error (and leaves the in-flight run's flag
alone); a run started on an idle runner never reports that error, clears the
running flag on its own exit path whatever the outcome, and therefore a
subsequent run on the same instance does not fail with the concurrency
error either. -/
theorem concurrent_run_guard (o o' : RunOracle) (s : RunnerSt) :
    (s.running = true → (runUntilConvergence o s).outcome = .alreadyRunning) ∧
    (s.running = false →
      (runUntilConvergence o s).outcome ≠ .alreadyRunning ∧
      (runUntilConvergence o s).final.running = false ∧
      (runUntilConvergence o' ((runUntilConvergence o s).final)).outcome
        ≠ .alreadyRunning) := by
  constructor
  · intro h; simp [runUntilConvergence, h]
  · intro h
    obtain ⟨hr, ho⟩ := run_not_running o s h
    exact ⟨ho, hr, (run_not_running o' _ hr).2⟩

/-- Witness for C1: a busy runner refuses; an idle runner with a trivial
one-superstep oracle finishes, clears the flag, and accepts a second run. -/
theorem concurrent_run_guard_witness :
    ((runUntilConvergence ⟨[], false, fun _ => ⟨[], .ok false⟩⟩
        ⟨true, 0, 5, false, false⟩).outcome = .alreadyRunning) ∧
    ((runUntilConvergence ⟨[], false, fun _ => ⟨[], .ok false⟩⟩
        ⟨false, 0, 5, false, false⟩).outcome ≠ .alreadyRunning ∧
     (runUntilConvergence ⟨[], false, fun _ => ⟨[], .ok false⟩⟩
        ⟨false, 0, 5, false, false⟩).final.running = false ∧
     (runUntilConvergence ⟨[], false, fun _ => ⟨[], .ok false⟩⟩
        ((runUntilConvergence ⟨[], false, fun _ => ⟨[], .ok false⟩⟩
          ⟨false, 0, 5, false, false⟩).final)).outcome ≠ .alreadyRunning) :=
  ⟨(concurrent_run_guard ⟨[], false, fun _ => ⟨[], .ok false⟩⟩
      ⟨[], false, fun _ => ⟨[], .ok false⟩⟩ ⟨true, 0, 5, false, false⟩).1 rfl,
   (concurrent_run_guard ⟨[], false, fun _ => ⟨[], .ok false⟩⟩
      ⟨[], false, fun _ => ⟨[], .ok false⟩⟩ ⟨false, 0, 5, false, false⟩).2 rfl⟩

theorem finishRun_notConverged (s : RunnerSt) (pre : List Event) (ic : List CkptLabel)
    (lr : LoopResult) (hf : lr.failure = none)
    (hle : s.maxIterations ≤ lr.iteration) (hm : lr.hasMessages = true) :
    (finishRun s pre ic lr).outcome = .notConverged s.maxIterations := by
  rcases lr with ⟨tr, ck, fl, it, hmsg⟩
  simp only at hf hle hm
  subst hf
  simp [finishRun, hle, hm]

theorem finishRun_notConverged_inv (s : RunnerSt) (pre : List Event)
    (ic : List CkptLabel) (lr : LoopResult) (m : Nat)
    (h : (finishRun s pre ic lr).outcome = .notConverged m) :
    m = s.maxIterations := by
  rcases lr with ⟨tr, ck, fl, it, hmsg⟩
  cases fl with
  | some e => simp [finishRun] at h
  | none =>
    by_cases hc : s.maxIterations ≤ it ∧ hmsg = true
    · simp [finishRun, hc] at h
      exact h.symm
    · simp [finishRun, hc] at h

theorem finishRun_ok_inv (s : RunnerSt) (pre : List Event) (ic : List CkptLabel)
    (lr : LoopResult) (h : (finishRun s pre ic lr).outcome = .ok) :
    lr.failure = none ∧ (lr.hasMessages = false ∨ lr.iteration < s.maxIterations) := by
  rcases lr with ⟨tr, ck, fl, it, hmsg⟩
  cases fl with
  | some e => simp [finishRun] at h
  | none =>
    by_cases hc : s.maxIterations ≤ it ∧ hmsg = true
    · simp [finishRun, hc] at h
    · refine ⟨rfl, ?_⟩
      show hmsg = false ∨ it < s.maxIterations
      cases hmsg with
      | false => exact Or.inl rfl
      | true =>
        right
        by_contra hlt
        exact hc ⟨by omega, rfl⟩

/-- **C2.** When the superstep loop exits without a delivery failure having
reached `max_iterations` while messages are still pending, the run fails
with the convergence error carrying the `max_iterations` limit; conversely
that error always names exactly the configured limit, and a successful run
implies the loop really converged (no messages pending, or it stopped below
the limit) — never a silent stop with messages queued. -/
theorem max_iterations_convergence_error (o : RunOracle) (s : RunnerSt)
    (h : s.running = false) :
    ((runLoop o s.hasCheckpointing s.iteration (s.maxIterations - s.iteration)
        o.initialHasMessages).failure = none →
      s.maxIterations ≤ (runLoop o s.hasCheckpointing s.iteration
        (s.maxIterations - s.iteration) o.initialHasMessages).iteration →
      (runLoop o s.hasCheckpointing s.iteration (s.maxIterations - s.iteration)
        o.initialHasMessages).hasMessages = true →
      (runUntilConvergence o s).outcome = .notConverged s.maxIterations) ∧
    (∀ m, (runUntilConvergence o s).outcome = .notConverged m → m = s.maxIterations) ∧
    ((runUntilConvergence o s).outcome = .ok →
      ((runLoop o s.hasCheckpointing s.iteration (s.maxIterations - s.iteration)
          o.initialHasMessages).hasMessages = false ∨
        (runLoop o s.hasCheckpointing s.iteration (s.maxIterations - s.iteration)
          o.initialHasMessages).iteration < s.maxIterations)) := by
  refine ⟨?_, ?_, ?_⟩
  · intro hf hle hm
    rw [run_eq o s h]
    exact finishRun_notConverged _ _ _ _ hf hle hm
  · intro m hm
    rw [run_eq o s h] at hm
    exact finishRun_notConverged_inv _ _ _ _ m hm
  · intro hok
    rw [run_eq o s h] at hok
    exact (finishRun_ok_inv _ _ _ _ hok).2

/-- Witness for C2: a two-iteration limit with an oracle that always leaves
messages pending ends in the convergence error naming the limit. -/
theorem max_iterations_convergence_error_witness :
    (runUntilConvergence ⟨[], true, fun _ => ⟨[], .ok true⟩⟩
        ⟨false, 0, 2, false, false⟩).outcome = .notConverged 2 :=
  (max_iterations_convergence_error ⟨[], true, fun _ => ⟨[], .ok true⟩⟩
      ⟨false, 0, 2, false, false⟩ rfl).1 rfl (by decide) rfl

theorem runLoop_no_initial_ckpt (o : RunOracle) (c : Bool) :
    ∀ (fuel iter : Nat) (hm : Bool),
      CkptLabel.afterInitialExecution ∉ (runLoop o c iter fuel hm).checkpoints := by
  intro fuel
  induction fuel with
  | zero => intro iter hm; simp [runLoop_zero]
  | succ n ih =>
    intro iter hm
    cases hres : (o.step iter).res with
    | error e => rw [runLoop_succ_error o c iter n hm e hres]; simp
    | ok b =>
      cases b with
      | false =>
        rw [runLoop_succ_break o c iter n hm hres]
        cases c <;> simp
      | true =>
        rw [runLoop_succ_continue o c iter n hm hres]
        cases c <;> simp [ih]

theorem finishRun_checkpoints (s : RunnerSt) (pre : List Event)
    (ic : List CkptLabel) (lr : LoopResult) :
    (finishRun s pre ic lr).checkpoints = ic ++ lr.checkpoints := by
  rcases lr with ⟨tr, ck, fl, it, hmsg⟩
  cases fl with
  | some e => rfl
  | none =>
    by_cases hc : s.maxIterations ≤ it ∧ hmsg = true <;> simp [finishRun, hc]

/-- **C6.** The `after_initial_execution` checkpoint is attempted exactly
when the run starts with pending messages, checkpointing enabled, and no
resume from a checkpoint; in particular a resumed runner skips it, and the
loop itself only ever produces `superstep_{n}` checkpoints. -/
theorem initial_checkpoint_iff (o : RunOracle) (s : RunnerSt) (h : s.running = false) :
    (CkptLabel.afterInitialExecution ∈ (runUntilConvergence o s).checkpoints ↔
      o.initialHasMessages = true ∧ s.hasCheckpointing = true ∧
        s.resumedFromCheckpoint = false) := by
  rw [run_eq o s h, finishRun_checkpoints, List.mem_append]
  have hnl := runLoop_no_initial_ckpt o s.hasCheckpointing
    (s.maxIterations - s.iteration) s.iteration o.initialHasMessages
  constructor
  · rintro (hin | hin)
    · by_cases h1 : o.initialHasMessages <;> by_cases h2 : s.hasCheckpointing <;>
        by_cases h3 : s.resumedFromCheckpoint <;> simp_all [initialCkpts]
    · exact absurd hin hnl
  · rintro ⟨h1, h2, h3⟩
    exact Or.inl (by simp [initialCkpts, h1, h2, h3])

/-- Witness for C6: a fresh checkpointing run with pending messages attempts
the initial checkpoint (both directions of the iff at concrete inputs). -/
theorem initial_checkpoint_iff_witness :
    CkptLabel.afterInitialExecution ∈
      (runUntilConvergence ⟨[], true, fun _ => ⟨[], .ok false⟩⟩
        ⟨false, 0, 3, false, true⟩).checkpoints ↔
    ((⟨[], true, fun _ => ⟨[], .ok false⟩⟩ : RunOracle).initialHasMessages = true ∧
     (⟨false, 0, 3, false, true⟩ : RunnerSt).hasCheckpointing = true ∧
     (⟨false, 0, 3, false, true⟩ : RunnerSt).resumedFromCheckpoint = false) :=
  initial_checkpoint_iff ⟨[], true, fun _ => ⟨[], .ok false⟩⟩
    ⟨false, 0, 3, false, true⟩ rfl

/-- Events queued during `n` consecutive successful supersteps starting at
iteration `iter`. -/
def stepTrace (o : RunOracle) (iter : Nat) : Nat → List Event
  | 0 => []
  | n + 1 => (o.step iter).events ++ stepTrace o (iter + 1) n

theorem runLoop_failure_spec (o : RunOracle) (c : Bool) :
    ∀ (fuel iter : Nat) (hm : Bool) (e : DeliveryErr),
      (runLoop o c iter fuel hm).failure = some e →
      ∃ k, iter ≤ k ∧ (o.step k).res = .error e ∧
        (runLoop o c iter fuel hm).trace
          = stepTrace o iter (k - iter) ++ (o.step k).events := by
  intro fuel
  induction fuel with
  | zero => intro iter hm e hf; simp [runLoop_zero] at hf
  | succ n ih =>
    intro iter hm e hf
    cases hres : (o.step iter).res with
    | error e' =>
      rw [runLoop_succ_error o c iter n hm e' hres] at hf ⊢
      simp only at hf
      obtain rfl : e' = e := by simpa using hf
      exact ⟨iter, Nat.le_refl _, hres, by simp [stepTrace]⟩
    | ok b =>
      cases b with
      | false =>
        rw [runLoop_succ_break o c iter n hm hres] at hf
        simp at hf
      | true =>
        rw [runLoop_succ_continue o c iter n hm hres] at hf ⊢
        simp only at hf ⊢
        obtain ⟨k, hk, hkres, htr⟩ := ih (iter + 1) true e hf
        refine ⟨k, by omega, hkres, ?_⟩
        have hksub : k - iter = (k - (iter + 1)) + 1 := by omega
        rw [htr, hksub]
        simp [stepTrace, List.append_assoc]

theorem finishRun_deliveryFailure (s : RunnerSt) (pre : List Event)
    (ic : List CkptLabel) (lr : LoopResult) (e : DeliveryErr)
    (h : (finishRun s pre ic lr).outcome = .deliveryFailure e) :
    lr.failure = some e ∧ (finishRun s pre ic lr).trace = pre ++ lr.trace := by
  rcases lr with ⟨tr, ck, fl, it, hmsg⟩
  cases fl with
  | some e' =>
    refine ⟨?_, rfl⟩
    have : RunOutcome.deliveryFailure e' = .deliveryFailure e := by
      simpa [finishRun] using h
    simpa using this
  | none =>
    by_cases hc : s.maxIterations ≤ it ∧ hmsg = true <;> simp [finishRun, hc] at h

/-- **C5.** When a superstep's delivery task fails, the events already queued
in the context at that point — the pre-loop events, every earlier superstep's
events, and the failing superstep's own queued events (for example an
executor-failed event) — are all yielded in the run's trace, and the
exception is then propagated as the run's outcome. -/
theorem delivery_failure_flushes_events (o : RunOracle) (s : RunnerSt)
    (h : s.running = false) (e : DeliveryErr)
    (hf : (runUntilConvergence o s).outcome = .deliveryFailure e) :
    ∃ k, s.iteration ≤ k ∧ (o.step k).res = .error e ∧
      (runUntilConvergence o s).trace
        = o.preEvents ++ (stepTrace o s.iteration (k - s.iteration)
            ++ (o.step k).events) := by
  rw [run_eq o s h] at hf ⊢
  obtain ⟨hlf, htr⟩ := finishRun_deliveryFailure s o.preEvents (initialCkpts o s)
    (runLoop o s.hasCheckpointing s.iteration (s.maxIterations - s.iteration)
      o.initialHasMessages) e hf
  obtain ⟨k, hk, hkres, hktr⟩ := runLoop_failure_spec o s.hasCheckpointing
    (s.maxIterations - s.iteration) s.iteration o.initialHasMessages e hlf
  exact ⟨k, hk, hkres, by rw [htr, hktr]⟩

/-- Witness for C5: the second superstep fails after queuing event 9; the
trace still ends with that event, after the pre-loop event 1 and the first
superstep's event 5, and the failure is the run's outcome. -/
theorem delivery_failure_flushes_events_witness :
    ∃ k, 0 ≤ k ∧
      ((⟨[1], true, fun i => if i = 0 then ⟨[5], .ok true⟩ else ⟨[9], .error "boom"⟩⟩ :
          RunOracle).step k).res = .error "boom" ∧
      (runUntilConvergence
          ⟨[1], true, fun i => if i = 0 then ⟨[5], .ok true⟩ else ⟨[9], .error "boom"⟩⟩
          ⟨false, 0, 7, false, false⟩).trace
        = [1] ++ (stepTrace
            ⟨[1], true, fun i => if i = 0 then ⟨[5], .ok true⟩ else ⟨[9], .error "boom"⟩⟩
            0 (k - 0)
          ++ ((⟨[1], true, fun i => if i = 0 then ⟨[5], .ok true⟩ else ⟨[9], .error "boom"⟩⟩ :
              RunOracle).step k).events) :=
  delivery_failure_flushes_events
    ⟨[1], true, fun i => if i = 0 then ⟨[5], .ok true⟩ else ⟨[9], .error "boom"⟩⟩
    ⟨false, 0, 7, false, false⟩ rfl "boom" (by decide)
